import Mathlib

/-!
Shallow embedding of `src/agents/product_copy_agents.py`.

The program chains three agents around an external text-generation service:
`CopyWriterAgent.generate_copies` formats a prompt template and parses the
service response into candidate copies, `ABTesterAgent.run` assigns each copy a
simulated conversion rate via `random.random()`, `FeedbackAgent.improve_prompt`
selects the best-scoring copy and asks the service for a better template, and
`PromptOptimizer.optimize` loops these for a fixed number of rounds, storing the
evolving template in `self.template`.

Modelling choices:
* The service boundary (`client.responses.create(model=..., input=...).output_text`)
  is an oracle `Env.respond : Call -> Except PyError String`; a `Call` records
  which agent issued it (the two agents are distinct call sites that may be
  stubbed separately) together with the prompt sent.  Every operation returns,
  next to its result, the list of service calls it made, so that claims about
  "no service call occurs" and call counts are statable.
* `random.random()` is an oracle stream `rng : Nat -> Rat` together with a
  cursor threaded through the pipeline; Python floats in [0,1) are modelled as
  rationals, which is faithful for the orderings and ranges the claims use.
* Python exceptions become `Except PyError`; `str.format`'s KeyError /
  IndexError / ValueError are collapsed into `PyError.formatError` (the spec's
  FormatError), `max()` on an empty dict is `PyError.emptyInputError`, and a
  failed service call is `PyError.serviceError`.
* Python `str` is modelled through `String` / `List Char`; `splitlines` is
  modelled for the newline `\n` (the only line break the program's data uses),
  `strip` with its Python character-set semantics (both ends), and a Python
  `dict` as an association list with insert-or-overwrite semantics preserving
  first-insertion order, as Python dicts do.
* `str.format` is modelled for templates built from literal text, doubled
  braces, and simple named replacement fields (the only shapes the repository
  uses): the keyword arguments passed by `generate_copies` are `product` and
  `n`; any other field name, an empty field, an unterminated field, or a stray
  brace raises (ValueError / KeyError / IndexError in Python, `formatError`
  here); unused keyword arguments are ignored, as in Python.
-/

/-- Python exceptions relevant to this program. -/
inductive PyError where
  | formatError
  | serviceError (msg : String)
  | emptyInputError
deriving DecidableEq, Repr

/-- One outbound service call: which agent made it, and the prompt sent. -/
inductive Call where
  | gen (prompt : String)
  | refine (prompt : String)
deriving DecidableEq, Repr

/-- Whether a recorded call is a generation call. -/
def Call.isGen : Call → Bool
  | .gen _ => true
  | .refine _ => false

/-- Whether a recorded call is a refinement call. -/
def Call.isRefine : Call → Bool
  | .gen _ => false
  | .refine _ => true

/-- The injected text-generation capability (the OpenAI client in the source). -/
structure Env where
  respond : Call → Except PyError String

/-- Python whitespace characters stripped by `str.strip()`. -/
def pyWs : List Char := [' ', '\t', '\n', '\x0b', '\x0c', '\r']

/-- Boolean test for Python whitespace. -/
def isWs (c : Char) : Bool := pyWs.contains c

/-- The character set of `strip("- ")` on line 25 of the source. -/
def isBullet (c : Char) : Bool := c == '-' || c == ' '

/-- Drop trailing characters satisfying `p` (the right half of Python `strip`). -/
def dropTrailing (p : Char → Bool) : List Char → List Char
  | [] => []
  | c :: cs =>
    match dropTrailing p cs with
    | [] => if p c then [] else [c]
    | x :: xs => c :: x :: xs

/-- Python `str.strip(chars)`: remove characters satisfying `p` from both ends. -/
def stripChars (p : Char → Bool) (l : List Char) : List Char :=
  dropTrailing p (l.dropWhile p)

/-- Python `line.strip("- ")` on a `String`. -/
def pyStripBullets (s : String) : String := ⟨stripChars isBullet s.data⟩

/-- Python `text.strip()` on a `String`. -/
def pyStripWs (s : String) : String := ⟨stripChars isWs s.data⟩

/-- Python truthiness of `line.strip()`: false iff every character is whitespace. -/
def pyIsBlank (s : String) : Bool := s.data.all isWs

/-- Split a character list at newlines, keeping a possibly empty last segment. -/
def splitLinesAux : List Char → List Char → List (List Char)
  | [], acc => [acc.reverse]
  | '\n' :: rest, acc => acc.reverse :: splitLinesAux rest []
  | c :: rest, acc => splitLinesAux rest (c :: acc)

/-- Python `str.splitlines()` for newline-separated text: the empty string gives
no lines, and a trailing newline does not produce a trailing empty line. -/
def pySplitlines (s : String) : List String :=
  match s.data with
  | [] => []
  | l =>
    let parts := splitLinesAux l []
    (if l.getLast? = some '\n' then parts.dropLast else parts).map fun cs => ⟨cs⟩

/-- One pass of Python `str.format` over the template characters.  The second
argument is `none` in literal text and `some nm` inside a replacement field
whose name so far is `nm` (reversed).  Returns `none` on a malformed template
or on a field that names neither keyword argument. -/
def formatLoop (product nstr : String) : List Char → Option (List Char) → Option (List Char)
  | [], none => some []
  | [], some _ => none
  | '{' :: '{' :: rest, none => (fun l => '{' :: l) <$> formatLoop product nstr rest none
  | '{' :: rest, none => formatLoop product nstr rest (some [])
  | '}' :: '}' :: rest, none => (fun l => '}' :: l) <$> formatLoop product nstr rest none
  | '}' :: _, none => none
  | c :: rest, none => (fun l => c :: l) <$> formatLoop product nstr rest none
  | '{' :: _, some _ => none
  | '}' :: rest, some nm =>
    if nm.reverse = "product".data then
      (fun l => product.data ++ l) <$> formatLoop product nstr rest none
    else if nm.reverse = "n".data then
      (fun l => nstr.data ++ l) <$> formatLoop product nstr rest none
    else none
  | c :: rest, some nm => formatLoop product nstr rest (some (c :: nm))

/-- `prompt_template.format(product=product, n=n)` (source line 23). -/
def format_template (template product : String) (n : ℕ) : Except PyError String :=
  match formatLoop product (toString n) template.data none with
  | some l => .ok ⟨l⟩
  | none => .error .formatError

/-- The line-parsing on lines 25-26 of the source:
`[line.strip("- ") for line in text.splitlines() if line.strip()][:n]`. -/
def parseCopies (text : String) (n : ℕ) : List String :=
  (((pySplitlines text).filter fun l => !pyIsBlank l).map pyStripBullets).take n

/-- `CopyWriterAgent.generate_copies` (source lines 21-26): format the template,
make one generation call, parse the response into at most `n` copies.  The
second component lists the service calls made. -/
def CopyWriterAgent.generate_copies (env : Env) (product prompt_template : String)
    (n : ℕ) : Except PyError (List String) × List Call :=
  match format_template prompt_template product n with
  | .error e => (.error e, [])
  | .ok prompt =>
    match env.respond (.gen prompt) with
    | .error e => (.error e, [.gen prompt])
    | .ok text => (.ok (parseCopies text n), [.gen prompt])

/-- Python dict insertion `d[k] = v`: overwrite in place if the key is present,
otherwise append at the end. -/
def dictInsert (k : String) (v : ℚ) (d : List (String × ℚ)) : List (String × ℚ) :=
  if k ∈ d.map Prod.fst then d.map fun p => if p.1 = k then (p.1, v) else p
  else d ++ [(k, v)]

/-- Python `d.get k` for an association-list dict (first match). -/
def dictGet (d : List (String × ℚ)) (k : String) : Option ℚ :=
  match d with
  | [] => none
  | p :: rest => if p.1 = k then some p.2 else dictGet rest k

/-- The dict comprehension `{copy: random.random() for copy in copies}`, with
the random stream `rng` read at cursor `k` onwards; returns the dict and the
advanced cursor. -/
def ABTesterAgent.runAux (rng : ℕ → ℚ) : List String → ℕ → List (String × ℚ) →
    List (String × ℚ) × ℕ
  | [], k, d => (d, k)
  | c :: cs, k, d => ABTesterAgent.runAux rng cs (k + 1) (dictInsert c (rng k) d)

/-- `ABTesterAgent.run` (source lines 32-33). -/
def ABTesterAgent.run (rng : ℕ → ℚ) (copies : List String) (k : ℕ) :
    List (String × ℚ) × ℕ :=
  ABTesterAgent.runAux rng copies k []

/-- Python `max(results, key=results.get)`: the first key attaining the maximum
value, `none` on an empty dict (where Python raises ValueError). -/
def pyMax (d : List (String × ℚ)) : Option String :=
  match d with
  | [] => none
  | p :: rest => some (rest.foldl (fun b q => if q.2 > b.2 then q else b) p).1

/-- The feedback prompt built on source lines 45-51. -/
def mkFeedbackPrompt (best_copy template : String) : String :=
  "The following marketing copy performed best in an A/B test:\n" ++ best_copy ++
  "\n\n" ++ "Original prompt template:\n" ++ template ++ "\n\n" ++
  "Suggest an improved prompt template that could yield better copies."

/-- `FeedbackAgent.improve_prompt` (source lines 43-53): select the best copy,
make one refinement call, return the stripped response. -/
def FeedbackAgent.improve_prompt (env : Env) (template : String)
    (results : List (String × ℚ)) : Except PyError String × List Call :=
  match pyMax results with
  | none => (.error .emptyInputError, [])
  | some best_copy =>
    let feedback_prompt := mkFeedbackPrompt best_copy template
    match env.respond (.refine feedback_prompt) with
    | .error e => (.error e, [.refine feedback_prompt])
    | .ok text => (.ok (pyStripWs text), [.refine feedback_prompt])

/-- One iteration of the loop body of `PromptOptimizer.optimize` (source lines
67-70), acting on the state `(self.template, rng cursor)`.  The generation call
passes no count, so the default `n = 2` of `generate_copies` applies.  On an
exception the template component is whatever `self.template` held at that
point: the round's refinement result is stored only after `improve_prompt`
returns. -/
def PromptOptimizer.roundStep (env : Env) (rng : ℕ → ℚ) (product : String)
    (st : String × ℕ) : Except PyError Unit × (String × ℕ) × List Call :=
  match CopyWriterAgent.generate_copies env product st.1 2 with
  | (.error e, cs) => (.error e, (st.1, st.2), cs)
  | (.ok copies, cs) =>
    let rk := ABTesterAgent.run rng copies st.2
    match FeedbackAgent.improve_prompt env st.1 rk.1 with
    | (.error e, cs2) => (.error e, (st.1, rk.2), cs ++ cs2)
    | (.ok newT, cs2) => (.ok (), (newT, rk.2), cs ++ cs2)

/-- `PromptOptimizer.optimize` (source lines 66-71): run `rounds` iterations
from state `st`, returning the result (final template, or the first exception),
the final stored state `(self.template, rng cursor)`, and the service calls
made, in order. -/
def PromptOptimizer.optimize (env : Env) (rng : ℕ → ℚ) (product : String) :
    ℕ → String × ℕ → Except PyError String × (String × ℕ) × List Call
  | 0, st => (.ok st.1, st, [])
  | n + 1, st =>
    match PromptOptimizer.roundStep env rng product st with
    | (.error e, st', cs) => (.error e, st', cs)
    | (.ok _, st', cs) =>
      let r := PromptOptimizer.optimize env rng product n st'
      (r.1, r.2.1, cs ++ r.2.2)

/-- The default template wired in `main` (source lines 79-80). -/
def mainTemplate : String :=
  "Generate {n} short, catchy marketing copies for {product}." ++
  "Each copy should be under 20 words."

/-- The deterministic stub service of the end-to-end scenario: every generation
call answers with two bulleted copies, every refinement call with the literal
text `New Template {product} {n}`. -/
def stubEnv : Env :=
  { respond := fun c => match c with
      | .gen _ => .ok "- Copy A\n- Copy B"
      | .refine _ => .ok "New Template {product} {n}" }

/-- A concrete random stream (the scores do not influence the stubbed runs). -/
def rzero : ℕ → ℚ := fun _ => 0

/-- A service that fails every call, for exercising the error paths. -/
def failEnv : Env := { respond := fun _ => .error (.serviceError "boom") }

/-- C1: with `rounds = 0` the loop body never runs: `optimize` returns the
stored template unchanged, leaves the state untouched, and makes no service
call of either kind. -/
theorem optimize_zero_rounds_id (env : Env) (rng : ℕ → ℚ) (product t : String)
    (k : ℕ) :
    PromptOptimizer.optimize env rng product 0 (t, k) = (.ok t, (t, k), []) := rfl

/-- C2: with product `wireless earbuds`, `rounds = 2`, the default template and
the deterministic stub service, `optimize` returns the literal string
`New Template {product} {n}` and the recorded trace holds exactly 2 generation
calls and exactly 2 refinement calls. -/
theorem optimize_two_rounds_stub :
    (PromptOptimizer.optimize stubEnv rzero "wireless earbuds" 2
        (mainTemplate, 0)).1 = .ok "New Template {product} {n}" ∧
    ((PromptOptimizer.optimize stubEnv rzero "wireless earbuds" 2
        (mainTemplate, 0)).2.2.countP Call.isGen) = 2 ∧
    ((PromptOptimizer.optimize stubEnv rzero "wireless earbuds" 2
        (mainTemplate, 0)).2.2.countP Call.isRefine) = 2 :=
  ⟨rfl, rfl, rfl⟩

/-- C7: `improve_prompt` on an empty scores dict raises EmptyInputError (the
`max` over zero elements) before any service call: the recorded trace is empty. -/
theorem improve_empty_scores_error (env : Env) (template : String) :
    FeedbackAgent.improve_prompt env template [] = (.error .emptyInputError, []) := rfl

/-- C6 counterexample: the template `no slots here` contains neither the
product slot nor the count slot, yet `generate_copies` does not fail with a
FormatError: Python `format` ignores unused keyword arguments, formatting
succeeds, and a generation service call is made. -/
theorem generate_missing_slots_no_error_cex :
    CopyWriterAgent.generate_copies stubEnv "x" "no slots here" 2 =
      (.ok ["Copy A", "Copy B"], [.gen "no slots here"]) := rfl

/-- C6 amended: whenever formatting the template does fail with a FormatError,
`generate_copies` surfaces it before any service call is made (the trace is
empty); a template merely lacking the two slots does not itself fail. -/
theorem format_error_before_service_call (env : Env) (product template : String)
    (n : ℕ) (e : PyError) (h : format_template template product n = .error e) :
    CopyWriterAgent.generate_copies env product template n = (.error e, []) := by
  unfold CopyWriterAgent.generate_copies
  rw [h]

/-- Witness for `format_error_before_service_call`: the template `{bogus}`
names an unknown field, formatting fails, and no call is made. -/
theorem format_error_before_service_call_witness :
    CopyWriterAgent.generate_copies stubEnv "x" "{bogus}" 2 =
      (.error .formatError, []) :=
  format_error_before_service_call stubEnv "x" "{bogus}" 2 .formatError rfl

/-- C5 counterexample: on a service response consisting of the single line `-`,
the line passes the blank filter (it contains a non-whitespace character) but
`strip("- ")` empties it, so `generate_copies` returns a blank item, against
the claim that every returned item is non-blank. -/
theorem generate_copies_blank_item_cex :
    (CopyWriterAgent.generate_copies
        { respond := fun _ => .ok "-" } "x" "{product} {n}" 2).1 = .ok [""] := rfl

/-- The head surviving `dropTrailing` is the head of the original list. -/
theorem head?_dropTrailing (p : Char → Bool) (l : List Char) (c : Char)
    (h : (dropTrailing p l).head? = some c) : l.head? = some c := by
  cases l with
  | nil => simp [dropTrailing] at h
  | cons a as =>
    rw [dropTrailing] at h
    cases hd : dropTrailing p as with
    | nil =>
      rw [hd] at h
      by_cases hp : p a
      · simp [hp] at h
      · simp [hp] at h
        simp [h]
    | cons x xs =>
      rw [hd] at h
      simp at h
      simp [h]

/-- The head surviving `dropWhile` does not satisfy the dropped predicate. -/
theorem head?_dropWhile (p : Char → Bool) :
    ∀ (l : List Char) (c : Char), (l.dropWhile p).head? = some c → p c = false
  | [], c, h => by simp [List.dropWhile] at h
  | a :: as, c, h => by
    by_cases hp : p a
    · rw [List.dropWhile_cons_of_pos hp] at h
      exact head?_dropWhile p as c h
    · rw [List.dropWhile_cons_of_neg hp] at h
      simp at h
      rw [← h]
      exact Bool.eq_false_iff.mpr hp

/-- The first character of a Python-stripped list is never in the strip set. -/
theorem head?_stripChars (p : Char → Bool) (l : List Char) (c : Char)
    (h : (stripChars p l).head? = some c) : p c = false :=
  head?_dropWhile p l c (head?_dropTrailing p _ c h)

/-- `parseCopies` keeps at most `n` results. -/
theorem parseCopies_length (text : String) (n : ℕ) :
    (parseCopies text n).length ≤ n := by
  unfold parseCopies
  rw [List.length_take]
  exact min_le_left _ _

/-- `parseCopies` results are stripped response lines in their received order. -/
theorem parseCopies_sublist (text : String) (n : ℕ) :
    List.Sublist (parseCopies text n) ((pySplitlines text).map pyStripBullets) :=
  (List.take_sublist _ _).trans ((List.filter_sublist _).map pyStripBullets)

/-- Inversion of a successful `generate_copies` run: the template formatted,
exactly one generation call was made, and the items are the parsed response. -/
theorem generate_copies_ok_inv (env : Env) (product template : String) (n : ℕ)
    (items : List String) (cs : List Call)
    (h : CopyWriterAgent.generate_copies env product template n = (.ok items, cs)) :
    ∃ p text, format_template template product n = .ok p ∧
      cs = [Call.gen p] ∧ env.respond (.gen p) = .ok text ∧
      items = parseCopies text n := by
  unfold CopyWriterAgent.generate_copies at h
  split at h
  · simp at h
  · rename_i p hf
    split at h
    · simp at h
    · rename_i text hr
      simp at h
      exact ⟨p, text, hf, h.2.symm, hr, h.1.symm⟩

/-- Inversion of a failed `generate_copies` run: either formatting failed and no
call was made, or the single generation call was made and the service failed. -/
theorem generate_copies_error_inv (env : Env) (product template : String) (n : ℕ)
    (e : PyError) (cs : List Call)
    (h : CopyWriterAgent.generate_copies env product template n = (.error e, cs)) :
    cs = [] ∨ ∃ p, format_template template product n = .ok p ∧ cs = [Call.gen p] := by
  unfold CopyWriterAgent.generate_copies at h
  split at h
  · simp at h
    exact Or.inl h.2
  · rename_i p hf
    split at h
    · simp at h
      exact Or.inr ⟨p, hf, h.2.symm⟩
    · simp at h

/-- C5 amended: a successful `generate_copies` returns at most `n` items, every
item starts with neither a `-` nor a space (the `strip("- ")` set, so no
leading bullet marker survives), and the items are the bullet-stripped response
lines in the order received; items may however be blank, when a non-blank line
consists only of `-` and space characters. -/
theorem generate_copies_bounded_clean (env : Env) (product template : String)
    (n : ℕ) (items : List String) (cs : List Call)
    (h : CopyWriterAgent.generate_copies env product template n = (.ok items, cs)) :
    items.length ≤ n ∧
    (∀ s ∈ items, ∀ c, s.data.head? = some c → isBullet c = false) ∧
    ∃ p text, cs = [Call.gen p] ∧ env.respond (.gen p) = .ok text ∧
      List.Sublist items ((pySplitlines text).map pyStripBullets) := by
  obtain ⟨p, text, hf, hcs, hr, hitems⟩ := generate_copies_ok_inv env product template n items cs h
  subst hitems
  refine ⟨parseCopies_length text n, ?_, p, text, hcs, hr, parseCopies_sublist text n⟩
  intro s hs c hc
  have hsub := parseCopies_sublist text n
  have hmem := hsub.subset hs
  obtain ⟨l, _, rfl⟩ := List.mem_map.mp hmem
  exact head?_stripChars isBullet l.data c hc

/-- Witness for `generate_copies_bounded_clean` on the stub service. -/
theorem generate_copies_bounded_clean_witness :
    (["Copy A", "Copy B"] : List String).length ≤ 2 ∧
    (∀ s ∈ (["Copy A", "Copy B"] : List String), ∀ c, s.data.head? = some c →
      isBullet c = false) ∧
    ∃ p text, ([Call.gen "x 2"] : List Call) = [Call.gen p] ∧
      stubEnv.respond (.gen p) = .ok text ∧
      List.Sublist ["Copy A", "Copy B"] ((pySplitlines text).map pyStripBullets) :=
  generate_copies_bounded_clean stubEnv "x" "{product} {n}" 2 ["Copy A", "Copy B"]
    [Call.gen "x 2"] rfl

/-- The Python `max` fold keeps an element of the list: the result is among the
initial element and the traversed ones, and its value bounds all of theirs.
This is exactly the first-maximum-wins behaviour of `max(d, key=d.get)`. -/
theorem foldlMax_spec :
    ∀ (rest : List (String × ℚ)) (p : String × ℚ),
      (rest.foldl (fun b q => if q.2 > b.2 then q else b) p) ∈ p :: rest ∧
      p.2 ≤ (rest.foldl (fun b q => if q.2 > b.2 then q else b) p).2 ∧
      ∀ q ∈ rest, q.2 ≤ (rest.foldl (fun b q => if q.2 > b.2 then q else b) p).2
  | [], p => ⟨List.mem_cons_self p [], le_refl _, by simp⟩
  | r :: rs, p => by
    rw [List.foldl_cons]
    obtain ⟨hm, hle, hall⟩ := foldlMax_spec rs (if r.2 > p.2 then r else p)
    have hp' : (if r.2 > p.2 then r else p) = r ∨ (if r.2 > p.2 then r else p) = p := by
      by_cases h : r.2 > p.2
      · exact Or.inl (if_pos h)
      · exact Or.inr (if_neg h)
    have hple : p.2 ≤ (if r.2 > p.2 then r else p).2 := by
      by_cases h : r.2 > p.2
      · rw [if_pos h]
        exact le_of_lt h
      · rw [if_neg h]
    have hrle : r.2 ≤ (if r.2 > p.2 then r else p).2 := by
      by_cases h : r.2 > p.2
      · rw [if_pos h]
      · rw [if_neg h]
        exact le_of_not_lt h
    refine ⟨?_, le_trans hple hle, ?_⟩
    · rcases List.mem_cons.mp hm with h | h
      · rcases hp' with h' | h'
        · rw [h, h']
          exact List.mem_cons_of_mem _ (List.mem_cons_self _ _)
        · rw [h, h']
          exact List.mem_cons_self _ _
      · exact List.mem_cons_of_mem _ (List.mem_cons_of_mem _ h)
    · intro q hq
      rcases List.mem_cons.mp hq with h | h
      · rw [h]
        exact le_trans hrle hle
      · exact hall q h

/-- A pair present in a dict with distinct keys is what `dictGet` finds. -/
theorem dictGet_of_mem :
    ∀ (d : List (String × ℚ)) (k : String) (v : ℚ),
      (k, v) ∈ d → (d.map Prod.fst).Nodup → dictGet d k = some v
  | [], k, v, h, _ => absurd h (List.not_mem_nil _)
  | p :: rest, k, v, h, hnd => by
    rw [List.map_cons, List.nodup_cons] at hnd
    rw [dictGet]
    rcases List.mem_cons.mp h with h1 | h1
    · rw [← h1]
      simp
    · have hk : k ∈ rest.map Prod.fst := List.mem_map.mpr ⟨(k, v), h1, rfl⟩
      have hne : ¬ p.1 = k := fun he => hnd.1 (he ▸ hk)
      rw [if_neg hne]
      exact dictGet_of_mem rest k v h1 hnd.2

/-- When the dict has a maximum key, the refinement call embeds it. -/
theorem improve_prompt_calls (env : Env) (template : String)
    (d : List (String × ℚ)) (b : String) (h : pyMax d = some b) :
    (FeedbackAgent.improve_prompt env template d).2 =
      [Call.refine (mkFeedbackPrompt b template)] := by
  unfold FeedbackAgent.improve_prompt
  rw [h]
  dsimp only
  cases env.respond (.refine (mkFeedbackPrompt b template)) <;> rfl

/-- C3: on a non-empty scores dict, `improve_prompt` selects a candidate whose
stored score is the maximum value present in the dict, and it is that candidate
that is embedded in the feedback prompt of the refinement call. -/
theorem improve_selects_max_score (d : List (String × ℚ)) (hne : d ≠ [])
    (hnd : (d.map Prod.fst).Nodup) :
    ∃ b v, pyMax d = some b ∧ dictGet d b = some v ∧
      v ∈ d.map Prod.snd ∧ (∀ q ∈ d.map Prod.snd, q ≤ v) ∧
      ∀ env template,
        (FeedbackAgent.improve_prompt env template d).2 =
          [Call.refine (mkFeedbackPrompt b template)] := by
  match d with
  | [] => exact absurd rfl hne
  | p :: rest =>
    obtain ⟨hm, hle, hall⟩ := foldlMax_spec rest p
    set m := rest.foldl (fun b q => if q.2 > b.2 then q else b) p with hmdef
    have hmax : pyMax (p :: rest) = some m.1 := rfl
    refine ⟨m.1, m.2, hmax, dictGet_of_mem _ _ _ hm hnd, List.mem_map.mpr ⟨m, hm, rfl⟩,
      ?_, ?_⟩
    · intro q hq
      rcases List.mem_map.mp hq with ⟨q', hq', rfl⟩
      rcases List.mem_cons.mp hq' with h1 | h1
      · rw [h1]
        exact hle
      · exact hall q' h1
    · intro env template
      exact improve_prompt_calls env template _ m.1 hmax

/-- Witness for `improve_selects_max_score` on a two-entry dict. -/
theorem improve_selects_max_score_witness :
    ([("a", (1 : ℚ)/2), ("b", (3 : ℚ)/4)] : List (String × ℚ)) ≠ [] ∧
    (([("a", (1 : ℚ)/2), ("b", (3 : ℚ)/4)] : List (String × ℚ)).map Prod.fst).Nodup ∧
    ∃ b v, pyMax [("a", (1 : ℚ)/2), ("b", (3 : ℚ)/4)] = some b ∧
      dictGet [("a", (1 : ℚ)/2), ("b", (3 : ℚ)/4)] b = some v ∧
      v ∈ ([("a", (1 : ℚ)/2), ("b", (3 : ℚ)/4)] : List (String × ℚ)).map Prod.snd ∧
      (∀ q ∈ ([("a", (1 : ℚ)/2), ("b", (3 : ℚ)/4)] : List (String × ℚ)).map Prod.snd,
        q ≤ v) ∧
      ∀ env template,
        (FeedbackAgent.improve_prompt env template
            [("a", (1 : ℚ)/2), ("b", (3 : ℚ)/4)]).2 =
          [Call.refine (mkFeedbackPrompt b template)] :=
  ⟨by decide, by decide,
    improve_selects_max_score [("a", (1 : ℚ)/2), ("b", (3 : ℚ)/4)] (by decide) (by decide)⟩

/-- Keys after a dict insertion: unchanged on overwrite, appended on new key. -/
theorem dictInsert_keys (k : String) (v : ℚ) (d : List (String × ℚ)) :
    (dictInsert k v d).map Prod.fst =
      if k ∈ d.map Prod.fst then d.map Prod.fst else d.map Prod.fst ++ [k] := by
  unfold dictInsert
  split
  · rw [List.map_map]
    refine List.map_congr_left ?_
    intro p _
    by_cases h : p.1 = k <;> simp [h]
  · simp

/-- Key membership after a dict insertion. -/
theorem mem_dictInsert_keys (c k : String) (v : ℚ) (d : List (String × ℚ)) :
    c ∈ (dictInsert k v d).map Prod.fst ↔ c ∈ d.map Prod.fst ∨ c = k := by
  rw [dictInsert_keys]
  by_cases hk : k ∈ d.map Prod.fst
  · rw [if_pos hk]
    constructor
    · exact Or.inl
    · rintro (h | rfl)
      · exact h
      · exact hk
  · rw [if_neg hk]
    simp

/-- Dict insertion preserves key distinctness. -/
theorem dictInsert_nodup (k : String) (v : ℚ) (d : List (String × ℚ))
    (h : (d.map Prod.fst).Nodup) : ((dictInsert k v d).map Prod.fst).Nodup := by
  rw [dictInsert_keys]
  by_cases hk : k ∈ d.map Prod.fst
  · rw [if_pos hk]
    exact h
  · rw [if_neg hk]
    rw [List.nodup_append]
    exact ⟨h, List.nodup_singleton k, by simpa using hk⟩

/-- Every value after a dict insertion is an old value or the inserted one. -/
theorem dictInsert_vals (k : String) (v : ℚ) (d : List (String × ℚ)) :
    ∀ w ∈ (dictInsert k v d).map Prod.snd, w ∈ d.map Prod.snd ∨ w = v := by
  unfold dictInsert
  split <;> intro w hw
  · rw [List.map_map] at hw
    rcases List.mem_map.mp hw with ⟨p, hp, rfl⟩
    by_cases h : p.1 = k
    · right
      simp [h]
    · left
      simp only [Function.comp_apply, if_neg h]
      exact List.mem_map.mpr ⟨p, hp, rfl⟩
  · rw [List.map_append] at hw
    rcases List.mem_append.mp hw with h | h
    · exact Or.inl h
    · right
      simpa using h

/-- Invariant of the dict comprehension: accumulating over `copies` keeps keys
distinct, keeps every value a drawn random number, and the final key set is the
accumulated key set together with the copies seen. -/
theorem runAux_spec (rng : ℕ → ℚ) (hr : ∀ i, 0 ≤ rng i ∧ rng i < 1) :
    ∀ (copies : List String) (k : ℕ) (d : List (String × ℚ)),
      (d.map Prod.fst).Nodup → (∀ v ∈ d.map Prod.snd, 0 ≤ v ∧ v < 1) →
      ((ABTesterAgent.runAux rng copies k d).1.map Prod.fst).Nodup ∧
      (∀ v ∈ (ABTesterAgent.runAux rng copies k d).1.map Prod.snd, 0 ≤ v ∧ v < 1) ∧
      ∀ c, c ∈ (ABTesterAgent.runAux rng copies k d).1.map Prod.fst ↔
        c ∈ d.map Prod.fst ∨ c ∈ copies
  | [], k, d, hnd, hv => ⟨hnd, hv, fun c => by simp [ABTesterAgent.runAux]⟩
  | c :: cs, k, d, hnd, hv => by
    rw [ABTesterAgent.runAux]
    have hv' : ∀ v ∈ (dictInsert c (rng k) d).map Prod.snd, 0 ≤ v ∧ v < 1 := by
      intro w hw
      rcases dictInsert_vals c (rng k) d w hw with h | rfl
      · exact hv w h
      · exact hr k
    obtain ⟨h1, h2, h3⟩ :=
      runAux_spec rng hr cs (k + 1) (dictInsert c (rng k) d)
        (dictInsert_nodup c (rng k) d hnd) hv'
    refine ⟨h1, h2, fun c' => ?_⟩
    rw [h3 c', mem_dictInsert_keys]
    constructor
    · rintro ((h | rfl) | h)
      · exact Or.inl h
      · exact Or.inr (List.mem_cons_self _ _)
      · exact Or.inr (List.mem_cons_of_mem _ h)
    · rintro (h | h)
      · exact Or.inl (Or.inl h)
      · rcases List.mem_cons.mp h with rfl | h'
        · exact Or.inl (Or.inr rfl)
        · exact Or.inr h'

/-- C4: `ABTesterAgent.run` returns a dict whose keys are exactly the distinct
candidate strings of the input (duplicates collapse to a single key) and whose
values are all drawn from the random stream, hence lie in [0, 1). -/
theorem abtester_run_keys_and_range (rng : ℕ → ℚ)
    (hr : ∀ i, 0 ≤ rng i ∧ rng i < 1) (copies : List String) (k : ℕ) :
    (((ABTesterAgent.run rng copies k).1.map Prod.fst).Nodup) ∧
    (∀ c, c ∈ (ABTesterAgent.run rng copies k).1.map Prod.fst ↔ c ∈ copies) ∧
    ∀ v ∈ (ABTesterAgent.run rng copies k).1.map Prod.snd, 0 ≤ v ∧ v < 1 := by
  unfold ABTesterAgent.run
  obtain ⟨h1, h2, h3⟩ := runAux_spec rng hr copies k [] (by simp) (by simp)
  refine ⟨h1, fun c => ?_, h2⟩
  rw [h3 c]
  simp

/-- A concrete in-range random stream for the witness. -/
def rhalf : ℕ → ℚ := fun _ => 1/2

/-- Witness for `abtester_run_keys_and_range` on a duplicated input. -/
theorem abtester_run_keys_and_range_witness :
    (∀ i, 0 ≤ rhalf i ∧ rhalf i < 1) ∧
    ((((ABTesterAgent.run rhalf ["a", "b", "a"] 0).1.map Prod.fst).Nodup) ∧
    (∀ c, c ∈ (ABTesterAgent.run rhalf ["a", "b", "a"] 0).1.map Prod.fst ↔
      c ∈ ["a", "b", "a"]) ∧
    ∀ v ∈ (ABTesterAgent.run rhalf ["a", "b", "a"] 0).1.map Prod.snd,
      0 ≤ v ∧ v < 1) :=
  ⟨fun _ => ⟨by norm_num [rhalf], by norm_num [rhalf]⟩,
    abtester_run_keys_and_range rhalf
      (fun _ => ⟨by norm_num [rhalf], by norm_num [rhalf]⟩) ["a", "b", "a"] 0⟩

/-- The dict comprehension draws exactly one random number per input copy. -/
theorem runAux_cursor (rng : ℕ → ℚ) :
    ∀ (copies : List String) (k : ℕ) (d : List (String × ℚ)),
      (ABTesterAgent.runAux rng copies k d).2 = k + copies.length
  | [], k, d => by simp [ABTesterAgent.runAux]
  | c :: cs, k, d => by
    rw [ABTesterAgent.runAux, runAux_cursor rng cs (k + 1) _]
    simp [List.length_cons]
    omega

/-- A failing round never stores a new template: the state's template component
after the exception equals the template the round started from. -/
theorem roundStep_error_state (env : Env) (rng : ℕ → ℚ) (product : String)
    (st : String × ℕ) (e : PyError) (st' : String × ℕ) (cs : List Call)
    (h : PromptOptimizer.roundStep env rng product st = (.error e, st', cs)) :
    st'.1 = st.1 := by
  unfold PromptOptimizer.roundStep at h
  split at h
  · simp only [Prod.mk.injEq] at h
    rw [← h.2.1]
  · dsimp only at h
    split at h
    · simp only [Prod.mk.injEq] at h
      rw [← h.2.1]
    · simp only [Prod.mk.injEq] at h
      exact absurd h.1 (by simp)

/-- C8: as soon as a round raises any error, `optimize` skips every remaining
round and returns exactly that error, however many rounds were still pending:
the stored state and the recorded calls are those at the moment of failure and
no further service call is made. -/
theorem optimize_error_aborts_rounds (env : Env) (rng : ℕ → ℚ) (product : String)
    (st : String × ℕ) (e : PyError) (st' : String × ℕ) (cs : List Call)
    (h : PromptOptimizer.roundStep env rng product st = (.error e, st', cs))
    (m : ℕ) :
    PromptOptimizer.optimize env rng product (m + 1) st = (.error e, st', cs) := by
  unfold PromptOptimizer.optimize
  rw [h]

/-- Witness for `optimize_error_aborts_rounds`: a service failing every call
aborts a 4-round optimization in round 1. -/
theorem optimize_error_aborts_rounds_witness :
    PromptOptimizer.optimize failEnv rzero "x" 4 (mainTemplate, 0) =
      (.error (.serviceError "boom"), (mainTemplate, 0),
        [Call.gen ("Generate 2 short, catchy marketing copies for x." ++
          "Each copy should be under 20 words.")]) :=
  optimize_error_aborts_rounds failEnv rzero "x" (mainTemplate, 0)
    (.serviceError "boom") (mainTemplate, 0)
    [Call.gen ("Generate 2 short, catchy marketing copies for x." ++
      "Each copy should be under 20 words.")] rfl 3

/-- C9: the optimizer's loop body calls `generate_copies` without a count, so
the generation prompt of a round is always formatted with the default count 2,
and the round scores at most 2 candidates (the random cursor advances by the
number of candidates, which is at most 2). -/
theorem round_uses_default_count (env : Env) (rng : ℕ → ℚ) (product t : String)
    (k : ℕ) (r : Except PyError Unit) (st' : String × ℕ) (cs : List Call)
    (h : PromptOptimizer.roundStep env rng product (t, k) = (r, st', cs)) :
    (∀ p rest, cs = Call.gen p :: rest → format_template t product 2 = .ok p) ∧
    st'.2 ≤ k + 2 := by
  unfold PromptOptimizer.roundStep at h
  split at h
  · rename_i e cs1 hg
    simp only [Prod.mk.injEq] at h
    obtain ⟨h1, h2, h3⟩ := h
    constructor
    · intro p rest hcs
      rcases generate_copies_error_inv env product t 2 e cs1 hg with hnil | ⟨p', hf, hcse⟩
      · rw [hnil] at h3
        rw [← h3] at hcs
        simp at hcs
      · rw [hcse] at h3
        rw [← h3] at hcs
        simp at hcs
        rw [← hcs.1]
        exact hf
    · rw [← h2]
      exact Nat.le_add_right k 2
  · rename_i copies cs1 hg
    obtain ⟨p0, text, hf, hcse, _, hcopies⟩ :=
      generate_copies_ok_inv env product t 2 copies cs1 hg
    have hlen : copies.length ≤ 2 := by
      rw [hcopies]
      exact parseCopies_length text 2
    have hcur : (ABTesterAgent.run rng copies k).2 = k + copies.length :=
      runAux_cursor rng copies k []
    dsimp only at h
    split at h
    · rename_i e cs2 hi
      simp only [Prod.mk.injEq] at h
      obtain ⟨h1, h2, h3⟩ := h
      constructor
      · intro p rest hcs
        rw [hcse] at h3
        rw [← h3] at hcs
        simp at hcs
        rw [← hcs.1]
        exact hf
      · rw [← h2]
        simp only [hcur]
        omega
    · rename_i newT cs2 hi
      simp only [Prod.mk.injEq] at h
      obtain ⟨h1, h2, h3⟩ := h
      constructor
      · intro p rest hcs
        rw [hcse] at h3
        rw [← h3] at hcs
        simp at hcs
        rw [← hcs.1]
        exact hf
      · rw [← h2]
        simp only [hcur]
        omega

/-- Witness for `round_uses_default_count` on the stub service. -/
theorem round_uses_default_count_witness :
    (∀ p rest,
      ([Call.gen ("Generate 2 short, catchy marketing copies for wireless earbuds." ++
          "Each copy should be under 20 words."),
        Call.refine (mkFeedbackPrompt "Copy A" mainTemplate)] : List Call) =
        Call.gen p :: rest →
      format_template mainTemplate "wireless earbuds" 2 = .ok p) ∧
    (("New Template {product} {n}", 2) : String × ℕ).2 ≤ 0 + 2 :=
  round_uses_default_count stubEnv rzero "wireless earbuds" mainTemplate 0
    (.ok ()) ("New Template {product} {n}", 2)
    [Call.gen ("Generate 2 short, catchy marketing copies for wireless earbuds." ++
        "Each copy should be under 20 words."),
      Call.refine (mkFeedbackPrompt "Copy A" mainTemplate)] rfl

/-- C10: the optimizer stores the refined template at the end of each round,
in place: after a successful round the remaining rounds of `optimize` continue
from the refined state, and a failing round leaves the stored template at the
value produced by the previous round (the entry value of the failing round),
with no rollback to the construction-time template. -/
theorem optimize_threads_template_state (env : Env) (rng : ℕ → ℚ)
    (product : String) (st : String × ℕ) (n : ℕ) :
    (∀ st' cs, PromptOptimizer.roundStep env rng product st = (.ok (), st', cs) →
      PromptOptimizer.optimize env rng product (n + 1) st =
        ((PromptOptimizer.optimize env rng product n st').1,
         (PromptOptimizer.optimize env rng product n st').2.1,
         cs ++ (PromptOptimizer.optimize env rng product n st').2.2)) ∧
    (∀ e st' cs, PromptOptimizer.roundStep env rng product st = (.error e, st', cs) →
      st'.1 = st.1 ∧
      PromptOptimizer.optimize env rng product (n + 1) st = (.error e, st', cs)) := by
  constructor
  · intro st' cs h
    conv_lhs => rw [PromptOptimizer.optimize]
    rw [h]
  · intro e st' cs h
    refine ⟨roundStep_error_state env rng product st e st' cs h, ?_⟩
    unfold PromptOptimizer.optimize
    rw [h]

/-- Witness for `optimize_threads_template_state`: one successful stubbed round
threads the refined template into the remaining rounds, and a failing first
round keeps the stored template at its entry value. -/
theorem optimize_threads_template_state_witness :
    (PromptOptimizer.optimize stubEnv rzero "wireless earbuds" 1 (mainTemplate, 0) =
      ((PromptOptimizer.optimize stubEnv rzero "wireless earbuds" 0
          ("New Template {product} {n}", 2)).1,
       (PromptOptimizer.optimize stubEnv rzero "wireless earbuds" 0
          ("New Template {product} {n}", 2)).2.1,
       [Call.gen ("Generate 2 short, catchy marketing copies for wireless earbuds." ++
           "Each copy should be under 20 words."),
         Call.refine (mkFeedbackPrompt "Copy A" mainTemplate)] ++
         (PromptOptimizer.optimize stubEnv rzero "wireless earbuds" 0
            ("New Template {product} {n}", 2)).2.2)) ∧
    (((mainTemplate, 0) : String × ℕ).1 = ((mainTemplate, 0) : String × ℕ).1 ∧
      PromptOptimizer.optimize failEnv rzero "x" 1 (mainTemplate, 0) =
        (.error (.serviceError "boom"), (mainTemplate, 0),
          [Call.gen ("Generate 2 short, catchy marketing copies for x." ++
            "Each copy should be under 20 words.")])) :=
  ⟨(optimize_threads_template_state stubEnv rzero "wireless earbuds"
      (mainTemplate, 0) 0).1 ("New Template {product} {n}", 2)
      [Call.gen ("Generate 2 short, catchy marketing copies for wireless earbuds." ++
          "Each copy should be under 20 words."),
        Call.refine (mkFeedbackPrompt "Copy A" mainTemplate)] rfl,
    (optimize_threads_template_state failEnv rzero "x" (mainTemplate, 0) 0).2
      (.serviceError "boom") (mainTemplate, 0)
      [Call.gen ("Generate 2 short, catchy marketing copies for x." ++
        "Each copy should be under 20 words.")] rfl⟩
